import Mathlib

/-!
Shallow embedding of the onedio faceswap/imagen webhook service.

The repository is an asynchronous orchestration layer: two FastAPI
endpoints accept jobs, assign a fresh request id, run the job in a
background task against two external collaborators (a face-swap library
and a cloud image-generation API), and POST the terminal result to a
callback URL.  A second FastAPI app receives those callbacks.

External effects are modelled as oracles (records of functions): the
vision collaborator as `VisionOracle`, the generation collaborator as
`GenOracle`, and the outbound callback POST as `CallbackOracle`.  The
orchestration code itself (src/app/main.py, src/app/callback_api.py,
the control flow of src/app/face_swapper.py and src/app/imagen.py) is
translated directly into total Lean functions over those oracles.
-/

/-- Python string truthiness applied by `payload.callback_url or CALLBACK_API_URL`
in src/app/main.py: a missing value and the empty string both fall back to
the default. -/
def pyStrOr (s : Option String) (d : String) : String :=
  match s with
  | none => d
  | some v => if v = "" then d else v

/-- True when the second character list is an initial segment of the
first. -/
def charsStartWith : List Char → List Char → Bool
  | _, [] => true
  | [], _ :: _ => false
  | c :: cs, d :: ds => c == d && charsStartWith cs ds

/-- True when the second character list occurs contiguously somewhere
in the first. -/
def charsContain : List Char → List Char → Bool
  | [], pat => charsStartWith [] pat
  | c :: cs, pat => charsStartWith (c :: cs) pat || charsContain cs pat

/-- Substring test used to state spec scenarios of the form
`error contains X`. -/
def strContains (s pat : String) : Bool :=
  charsContain s.toList pat.toList

/-- Oracle for the external vision collaborator used by
`FaceSwapProcessor.face_swap_function` in src/app/face_swapper.py.
Decoded images are abstract handles represented as strings.
`decodeExc` is the exception message raised inside the base64/buffer
decoding try-block, if any; `imdecode` is the result of `cv2.imdecode`
(`none` models Python `None`); `numFaces` is `len(self.app.get img)`;
`swap` covers `self.swapper.get` plus the jpg re-encoding, which may
raise. -/
structure VisionOracle where
  decodeExc : String → String → Option String
  imdecode : String → Option String
  numFaces : String → Nat
  swap : String → String → Except String String

/-- Translation of `FaceSwapProcessor.face_swap_function`
(src/app/face_swapper.py lines 35-95): decode both base64 images, fail
with the Turkish error messages of the source when decoding fails or
when either image contains zero detected faces, otherwise swap the
first source face onto the target image. -/
def face_swap_function (env : VisionOracle)
    (source_image_base64 target_image_base64 : String) : Except String String :=
  match env.decodeExc source_image_base64 target_image_base64 with
  | some e => .error ("Base64 decode hatası: " ++ e)
  | none =>
    match env.imdecode source_image_base64 with
    | none => .error "Kaynak resim base64\x27ten decode edilemedi!"
    | some source_img =>
      match env.imdecode target_image_base64 with
      | none => .error "Hedef resim base64\x27ten decode edilemedi!"
      | some target_img =>
        if env.numFaces source_img = 0 then
          .error "Kaynak resimde yüz bulunamadı!"
        else if env.numFaces target_img = 0 then
          .error "Hedef resimde yüz bulunamadı!"
        else
          env.swap source_img target_img

/-- Oracle for the external generation collaborator used by
`ImagenGenerator.generate_image_from_test` in src/app/imagen.py:
given the assembled prompt, either the base64 of the generated image or
the message of the raised remote-service exception. -/
structure GenOracle where
  generate : String → Except String String

/-- Prompt assembly of `ImagenGenerator.generate_image_from_test`
(src/app/imagen.py lines 54-59). -/
def imagen_prompt (test_sonucu test_adi test_aciklamasi gender : String)
    (age : Int) (image_place image_style : String) : String :=
  "Draw a realistic image for this test. Do not add text. It should represent the test result. " ++
  "It should look like a stock image. Only 1 person should be in the image. " ++
  "Test name: " ++ test_adi ++ ", Result: " ++ test_sonucu ++
  ", Description: " ++ test_aciklamasi ++ ", Gender: " ++ gender ++
  ", Age: " ++ toString age ++ ", Place: " ++ image_place ++
  ", Style: " ++ image_style

/-- Translation of `ImagenGenerator.generate_image_from_test`
(src/app/imagen.py): build the prompt and invoke the generation
collaborator. -/
def generate_image_from_test (gen : GenOracle)
    (test_sonucu test_adi test_aciklamasi gender : String) (age : Int)
    (image_place image_style : String) : Except String String :=
  gen.generate (imagen_prompt test_sonucu test_adi test_aciklamasi gender age
    image_place image_style)

namespace main

/-- Request model of `TestImageRequest` in src/app/main.py. -/
structure TestImageRequest where
  test_sonucu : String
  test_adi : String
  test_aciklamasi : String
  gender : String
  age : Int
  image_place : String := "The place must be relevant to the test"
  image_style : String := "The theme must be relevant to the test"
  source_face_image_base64 : String
  callback_url : Option String := none
deriving Repr, DecidableEq

/-- Request model of `FaceSwapRequest` in src/app/main.py. -/
structure FaceSwapRequest where
  source_image_base64 : String
  target_image_base64 : String
  callback_url : Option String := none
deriving Repr, DecidableEq

/-- Result model of `TestImageResult` in src/app/main.py. -/
structure TestImageResult where
  status : String
  generated_image_base64 : String := ""
  swapped_image_base64 : String := ""
  request_id : Option String := none
  error : Option String := none
deriving Repr, DecidableEq

/-- Result model of `FaceSwapResult` in src/app/main.py. -/
structure FaceSwapResult where
  status : String
  swapped_image_base64 : String := ""
  request_id : Option String := none
  error : Option String := none
deriving Repr, DecidableEq

/-- Oracle for the outbound callback POST
(`httpx.AsyncClient.post` in src/app/main.py): the exception message
raised for a given callback URL, or `none` when the POST succeeds. -/
structure CallbackOracle where
  postExc : String → Option String

/-- Observable outcome of one run of `process_face_swap_and_callback`:
the terminal result it builds, the callback URL it resolves, the list
of delivery attempts it performs (URL and posted payload), and the
callback exception it catches, if any. -/
structure FaceSwapRunOutcome where
  result : FaceSwapResult
  callback_url : String
  deliveries : List (String × FaceSwapResult)
  caughtCallbackError : Option String
deriving Repr, DecidableEq

/-- Observable outcome of one run of `process_test_image_and_callback`;
`visionInvoked` records whether `face_swap_function` was ever called. -/
structure TestImageRunOutcome where
  result : TestImageResult
  callback_url : String
  visionInvoked : Bool
  deliveries : List (String × TestImageResult)
  caughtCallbackError : Option String
deriving Repr, DecidableEq

/-- Translation of the background task `process_test_image_and_callback`
(src/app/main.py lines 60-111): resolve the callback URL, generate the
image, then swap the face onto it; any exception from either step
yields a failed result with empty image fields; finally perform exactly
one callback POST, catching any delivery exception. -/
def process_test_image_and_callback (venv : VisionOracle) (gen : GenOracle)
    (cb : CallbackOracle) (CALLBACK_API_URL : String)
    (payload : TestImageRequest) (request_id : String) : TestImageRunOutcome :=
  let callback_url := pyStrOr payload.callback_url CALLBACK_API_URL
  match generate_image_from_test gen payload.test_sonucu payload.test_adi
      payload.test_aciklamasi payload.gender payload.age payload.image_place
      payload.image_style with
  | .error e =>
      let result : TestImageResult :=
        { status := "failed", generated_image_base64 := "",
          swapped_image_base64 := "", request_id := some request_id,
          error := some e }
      { result := result, callback_url := callback_url, visionInvoked := false,
        deliveries := [(callback_url, result)],
        caughtCallbackError := cb.postExc callback_url }
  | .ok generated_image_base64 =>
      match face_swap_function venv payload.source_face_image_base64
          generated_image_base64 with
      | .error e =>
          let result : TestImageResult :=
            { status := "failed", generated_image_base64 := "",
              swapped_image_base64 := "", request_id := some request_id,
              error := some e }
          { result := result, callback_url := callback_url,
            visionInvoked := true,
            deliveries := [(callback_url, result)],
            caughtCallbackError := cb.postExc callback_url }
      | .ok swapped_image_base64 =>
          let result : TestImageResult :=
            { status := "success",
              generated_image_base64 := generated_image_base64,
              swapped_image_base64 := swapped_image_base64,
              request_id := some request_id, error := none }
          { result := result, callback_url := callback_url,
            visionInvoked := true,
            deliveries := [(callback_url, result)],
            caughtCallbackError := cb.postExc callback_url }

/-- Translation of the background task `process_face_swap_and_callback`
(src/app/main.py lines 113-147). -/
def process_face_swap_and_callback (venv : VisionOracle) (cb : CallbackOracle)
    (CALLBACK_API_URL : String) (payload : FaceSwapRequest)
    (request_id : String) : FaceSwapRunOutcome :=
  let callback_url := pyStrOr payload.callback_url CALLBACK_API_URL
  match face_swap_function venv payload.source_image_base64
      payload.target_image_base64 with
  | .ok swapped_base64 =>
      let result : FaceSwapResult :=
        { status := "success", swapped_image_base64 := swapped_base64,
          request_id := some request_id, error := none }
      { result := result, callback_url := callback_url,
        deliveries := [(callback_url, result)],
        caughtCallbackError := cb.postExc callback_url }
  | .error e =>
      let result : FaceSwapResult :=
        { status := "failed", swapped_image_base64 := "",
          request_id := some request_id, error := some e }
      { result := result, callback_url := callback_url,
        deliveries := [(callback_url, result)],
        caughtCallbackError := cb.postExc callback_url }

/-- Immediate HTTP response of the submission endpoints. -/
structure SubmitResponse where
  message : String
  request_id : String
deriving Repr, DecidableEq

/-- A background task scheduled via `background_tasks.add_task`:
the captured payload and the request id the task will process. -/
structure ScheduledTask (α : Type) where
  payload : α
  request_id : String
deriving Repr, DecidableEq

/-- Translation of the `/process-test-image` endpoint handler
`process_test_image` (src/app/main.py lines 154-174); the fresh
`uuid.uuid4()` value is a parameter. -/
def process_test_image (payload : TestImageRequest) (fresh_uuid : String) :
    SubmitResponse × ScheduledTask TestImageRequest :=
  ({ message := "Request received. Test image generation and face swap will continue in background.",
     request_id := fresh_uuid },
   { payload := payload, request_id := fresh_uuid })

/-- Translation of the `/process-face-swap` endpoint handler
`process_face_swap_endpoint` (src/app/main.py lines 176-193). -/
def process_face_swap_endpoint (payload : FaceSwapRequest) (fresh_uuid : String) :
    SubmitResponse × ScheduledTask FaceSwapRequest :=
  ({ message := "Request received. Face swap processing will continue in background.",
     request_id := fresh_uuid },
   { payload := payload, request_id := fresh_uuid })

/-- Routing table of the orchestrator app in src/app/main.py: the
method/path pairs registered by its decorators. -/
def routes : List (String × String) :=
  [("GET", "/health"), ("POST", "/process-test-image"),
   ("POST", "/process-face-swap")]

end main

namespace callback_api

/-- Result model of `FaceSwapResult` in src/app/callback_api.py
(duplicated there from main.py). -/
structure FaceSwapResult where
  status : String
  swapped_image_base64 : String := ""
  request_id : Option String := none
  error : Option String := none
deriving Repr, DecidableEq

/-- Result model of `TestImageResult` in src/app/callback_api.py. -/
structure TestImageResult where
  status : String
  generated_image_base64 : String := ""
  swapped_image_base64 : String := ""
  request_id : Option String := none
  error : Option String := none
deriving Repr, DecidableEq

/-- Request model of `FaceSwapRequest` in src/app/callback_api.py:
unlike the orchestrator variant it has no callback_url field. -/
structure FaceSwapRequest where
  source_image_base64 : String
  target_image_base64 : String
deriving Repr, DecidableEq

/-- JSON object returned by the callback-receiver handlers.  Each field
is `some v` when the corresponding key is present in the returned dict
and `none` when the key is absent; for `request_id` and `error` the
inner option is the possibly-null value. -/
structure JsonResponse where
  message : Option String := none
  status : Option String := none
  request_id : Option (Option String) := none
  error : Option (Option String) := none
  swapped_image_base64 : Option String := none
  generated_image_base64 : Option String := none
deriving Repr, DecidableEq

/-- Translation of the `/callback/test-image` handler
`receive_test_image_callback` (src/app/callback_api.py lines 32-60). -/
def receive_test_image_callback (result : TestImageResult) : JsonResponse :=
  if result.status = "success" ∧ result.swapped_image_base64 ≠ "" then
    { message := some "Test image callback received",
      status := some result.status,
      generated_image_base64 := some result.generated_image_base64,
      swapped_image_base64 := some result.swapped_image_base64,
      request_id := some result.request_id }
  else if result.status = "failed" then
    { message := some "Test image callback received",
      status := some result.status,
      error := some result.error,
      request_id := some result.request_id }
  else
    { message := some "Test image callback received",
      status := some result.status,
      request_id := some result.request_id }

/-- Translation of the `/callback/face-swap` handler
`receive_face_swap_callback` (src/app/callback_api.py lines 62-89). -/
def receive_face_swap_callback (result : FaceSwapResult) : JsonResponse :=
  if result.status = "success" ∧ result.swapped_image_base64 ≠ "" then
    { message := some "Face swap callback received",
      status := some result.status,
      swapped_image_base64 := some result.swapped_image_base64,
      request_id := some result.request_id }
  else if result.status = "failed" then
    { message := some "Face swap callback received",
      status := some result.status,
      error := some result.error,
      request_id := some result.request_id }
  else
    { message := some "Face swap callback received",
      status := some result.status,
      request_id := some result.request_id }

/-- Translation of the synchronous `/direct` handler `direct_face_swap`
(src/app/callback_api.py lines 91-109): runs the face swap inline and
answers without any request_id key. -/
def direct_face_swap (venv : VisionOracle) (request : FaceSwapRequest) :
    JsonResponse :=
  match face_swap_function venv request.source_image_base64
      request.target_image_base64 with
  | .ok swapped_base64 =>
      { status := some "success",
        swapped_image_base64 := some swapped_base64,
        message := some "Face swap completed successfully" }
  | .error e =>
      { status := some "failed",
        error := some (some e),
        message := some "Face swap failed" }

/-- Translation of the `/callback` compatibility handler
`callback_compat` (src/app/callback_api.py lines 112-115): delegates to
`receive_face_swap_callback`. -/
def callback_compat (result : FaceSwapResult) : JsonResponse :=
  receive_face_swap_callback result

/-- Translation of the `/face-swap` compatibility handler
`face_swap_compat` (src/app/callback_api.py lines 117-120): delegates
to `direct_face_swap`. -/
def face_swap_compat (venv : VisionOracle) (request : FaceSwapRequest) :
    JsonResponse :=
  direct_face_swap venv request

/-- Translation of the `/test` compatibility handler `test_compat`
(src/app/callback_api.py lines 122-125): delegates to
`receive_face_swap_callback`. -/
def test_compat (result : FaceSwapResult) : JsonResponse :=
  receive_face_swap_callback result

/-- Routing table of the callback-receiver app in
src/app/callback_api.py. -/
def routes : List (String × String) :=
  [("POST", "/callback/test-image"), ("POST", "/callback/face-swap"),
   ("POST", "/direct"), ("POST", "/callback"), ("POST", "/face-swap"),
   ("POST", "/test")]

end callback_api

/-- Concrete vision oracle for witnesses: every image handle decodes to
itself, the image "src" contains one face, every other image contains
none, and swapping succeeds with output "swapped". -/
def sampleVision : VisionOracle :=
  { decodeExc := fun _ _ => none,
    imdecode := fun s => some s,
    numFaces := fun s => if s = "src" then 1 else 0,
    swap := fun _ _ => .ok "swapped" }

/-- Concrete vision oracle for witnesses where every image contains a
face. -/
def happyVision : VisionOracle :=
  { decodeExc := fun _ _ => none,
    imdecode := fun s => some s,
    numFaces := fun _ => 1,
    swap := fun _ _ => .ok "swapped" }

/-- Concrete generation oracle that succeeds with the image "genimg". -/
def sampleGen : GenOracle := { generate := fun _ => .ok "genimg" }

/-- Concrete generation oracle that fails with a remote error. -/
def failingGen : GenOracle := { generate := fun _ => .error "remote error" }

/-- Concrete callback oracle whose POST always succeeds. -/
def okCallback : main.CallbackOracle := { postExc := fun _ => none }

/-- Concrete callback oracle whose POST always raises. -/
def failingCallback : main.CallbackOracle :=
  { postExc := fun _ => some "connection refused" }

/-- Concrete face-swap submission used by witnesses. -/
def sampleFaceSwapRequest : main.FaceSwapRequest :=
  { source_image_base64 := "src", target_image_base64 := "tgt",
    callback_url := none }

/-- Concrete test-image submission used by witnesses. -/
def sampleTestImageRequest : main.TestImageRequest :=
  { test_sonucu := "res", test_adi := "name", test_aciklamasi := "desc",
    gender := "female", age := 30, image_place := "park",
    image_style := "photo", source_face_image_base64 := "src",
    callback_url := none }

/-- C1: every submitted job (via POST /process-face-swap or POST
/process-test-image) yields exactly one terminal result and exactly one
callback delivery attempt, and the delivered result's request_id equals
the identifier assigned at submission and returned to the caller. -/
theorem submitted_job_one_result_one_delivery
    (venv : VisionOracle) (gen : GenOracle) (cb : main.CallbackOracle)
    (url : String) (fp : main.FaceSwapRequest) (tp : main.TestImageRequest)
    (rid : String) :
    (main.process_face_swap_endpoint fp rid).1.request_id = rid ∧
    (main.process_face_swap_and_callback venv cb url fp rid).deliveries =
      [((main.process_face_swap_and_callback venv cb url fp rid).callback_url,
        (main.process_face_swap_and_callback venv cb url fp rid).result)] ∧
    (main.process_face_swap_and_callback venv cb url fp rid).result.request_id
      = some rid ∧
    (main.process_test_image tp rid).1.request_id = rid ∧
    (main.process_test_image_and_callback venv gen cb url tp rid).deliveries =
      [((main.process_test_image_and_callback venv gen cb url tp rid).callback_url,
        (main.process_test_image_and_callback venv gen cb url tp rid).result)] ∧
    (main.process_test_image_and_callback venv gen cb url tp rid).result.request_id
      = some rid := by
  refine ⟨rfl, ?_, ?_, rfl, ?_, ?_⟩ <;>
    simp only [main.process_face_swap_and_callback,
      main.process_test_image_and_callback] <;>
    (repeat' split) <;> simp

/-- C6: the legacy alias endpoints /callback and /test return, for every
result payload, exactly the response of /callback/face-swap: all three
delegate to the same handler. -/
theorem compat_endpoints_delegate (r : callback_api.FaceSwapResult) :
    callback_api.callback_compat r = callback_api.receive_face_swap_callback r ∧
    callback_api.test_compat r = callback_api.receive_face_swap_callback r :=
  ⟨rfl, rfl⟩

/-- C8 counterexample: the orchestrator app registers no POST /process
route; its only submission routes are /process-test-image and
/process-face-swap. -/
theorem process_route_absent_cx : ("POST", "/process") ∉ main.routes := by
  decide

/-- C8 amended: the face-swap-only submission endpoint is POST
/process-face-swap; it accepts a body with source_image_base64,
target_image_base64 and optional callback_url and returns a response
carrying a message and the fresh request_id. -/
theorem process_face_swap_route_exists
    (fp : main.FaceSwapRequest) (rid : String) :
    ("POST", "/process-face-swap") ∈ main.routes ∧
    (main.process_face_swap_endpoint fp rid).1 =
      { message := "Request received. Face swap processing will continue in background.",
        request_id := rid } :=
  ⟨by decide, rfl⟩

/-- C2: when the generation collaborator raises, a GenerateThenSwap job
produces a failed result carrying the raised message and the vision
collaborator is never invoked. -/
theorem generation_failure_short_circuits_vision
    (venv : VisionOracle) (gen : GenOracle) (cb : main.CallbackOracle)
    (url : String) (tp : main.TestImageRequest) (rid e : String)
    (h : generate_image_from_test gen tp.test_sonucu tp.test_adi
      tp.test_aciklamasi tp.gender tp.age tp.image_place tp.image_style
      = .error e) :
    (main.process_test_image_and_callback venv gen cb url tp rid).result.status
      = "failed" ∧
    (main.process_test_image_and_callback venv gen cb url tp rid).result.error
      = some e ∧
    (main.process_test_image_and_callback venv gen cb url tp rid).visionInvoked
      = false := by
  simp [main.process_test_image_and_callback, h]

/-- C2 witness: a concrete failing generation oracle exercises the
short-circuit. -/
theorem generation_failure_short_circuits_vision_witness :
    (main.process_test_image_and_callback sampleVision failingGen okCallback
        "u" sampleTestImageRequest "r").result.status = "failed" ∧
    (main.process_test_image_and_callback sampleVision failingGen okCallback
        "u" sampleTestImageRequest "r").result.error = some "remote error" ∧
    (main.process_test_image_and_callback sampleVision failingGen okCallback
        "u" sampleTestImageRequest "r").visionInvoked = false :=
  generation_failure_short_circuits_vision sampleVision failingGen okCallback
    "u" sampleTestImageRequest "r" "remote error" rfl

/-- C9: when generation succeeds but the subsequent face swap raises,
the delivered failed result discards the generated image: both image
fields are empty strings and the error is the swap exception message. -/
theorem swap_failure_discards_generated_image
    (venv : VisionOracle) (gen : GenOracle) (cb : main.CallbackOracle)
    (url : String) (tp : main.TestImageRequest) (rid g e : String)
    (hg : generate_image_from_test gen tp.test_sonucu tp.test_adi
      tp.test_aciklamasi tp.gender tp.age tp.image_place tp.image_style
      = .ok g)
    (hs : face_swap_function venv tp.source_face_image_base64 g = .error e) :
    (main.process_test_image_and_callback venv gen cb url tp rid).result =
      { status := "failed", generated_image_base64 := "",
        swapped_image_base64 := "", request_id := some rid,
        error := some e } ∧
    (main.process_test_image_and_callback venv gen cb url tp rid).visionInvoked
      = true := by
  simp [main.process_test_image_and_callback, hg, hs]

/-- C9 witness: generation yields an image with no detectable face, so
the swap raises and the generated image is dropped from the result. -/
theorem swap_failure_discards_generated_image_witness :
    (main.process_test_image_and_callback sampleVision sampleGen okCallback
        "u" sampleTestImageRequest "r").result =
      { status := "failed", generated_image_base64 := "",
        swapped_image_base64 := "", request_id := some "r",
        error := some "Hedef resimde yüz bulunamadı!" } ∧
    (main.process_test_image_and_callback sampleVision sampleGen okCallback
        "u" sampleTestImageRequest "r").visionInvoked = true :=
  swap_failure_discards_generated_image sampleVision sampleGen okCallback "u"
    sampleTestImageRequest "r" "genimg" "Hedef resimde yüz bulunamadı!" rfl rfl

/-- C10: a submission whose callback_url field is present but empty is
processed exactly as if the field were absent, and its result is
delivered to the process-wide default CALLBACK_API_URL. -/
theorem empty_callback_url_uses_default
    (venv : VisionOracle) (gen : GenOracle) (cb : main.CallbackOracle)
    (url : String) (fp : main.FaceSwapRequest) (tp : main.TestImageRequest)
    (rid : String) :
    main.process_face_swap_and_callback venv cb url
        { fp with callback_url := some "" } rid =
      main.process_face_swap_and_callback venv cb url
        { fp with callback_url := none } rid ∧
    (main.process_face_swap_and_callback venv cb url
        { fp with callback_url := some "" } rid).callback_url = url ∧
    main.process_test_image_and_callback venv gen cb url
        { tp with callback_url := some "" } rid =
      main.process_test_image_and_callback venv gen cb url
        { tp with callback_url := none } rid ∧
    (main.process_test_image_and_callback venv gen cb url
        { tp with callback_url := some "" } rid).callback_url = url := by
  obtain ⟨s, t, c⟩ := fp
  obtain ⟨a1, a2, a3, a4, a5, a6, a7, a8, a9⟩ := tp
  refine ⟨?_, ?_, ?_, ?_⟩ <;>
    simp only [main.process_face_swap_and_callback,
      main.process_test_image_and_callback, pyStrOr] <;>
    (repeat' split) <;> simp_all

/-- Concrete face-swap request for the callback-receiver app. -/
def sampleCallbackRequest : callback_api.FaceSwapRequest :=
  { source_image_base64 := "src", target_image_base64 := "tgt" }

/-- C3 counterexample: for a FaceSwapOnly submission whose target image
contains zero detectable faces, the callback payload is failed with the
correct request_id, but its error message is the Turkish sentence of
src/app/face_swapper.py, which does not contain the substring "face". -/
theorem no_face_error_lacks_english_face_cx :
    sampleVision.numFaces "tgt" = 0 ∧
    (main.process_face_swap_and_callback sampleVision okCallback "u"
        sampleFaceSwapRequest "r").result.status = "failed" ∧
    (main.process_face_swap_and_callback sampleVision okCallback "u"
        sampleFaceSwapRequest "r").result.request_id = some "r" ∧
    (main.process_face_swap_and_callback sampleVision okCallback "u"
        sampleFaceSwapRequest "r").result.error =
      some "Hedef resimde yüz bulunamadı!" ∧
    strContains "Hedef resimde yüz bulunamadı!" "face" = false := by
  refine ⟨by decide, ?_, ?_, ?_, by decide⟩ <;>
    simp [main.process_face_swap_and_callback, face_swap_function, sampleVision,
      sampleFaceSwapRequest]

/-- C3 amended: for a FaceSwapOnly submission whose target image
contains zero detectable faces (and whose source decodes and has a
face), the callback payload has status "failed", an error string that
contains the substring "yüz" (Turkish for face), and a request_id equal
to the submission's identifier. -/
theorem no_face_in_target_failed_callback
    (venv : VisionOracle) (cb : main.CallbackOracle) (url rid : String)
    (fp : main.FaceSwapRequest) (src tgt : String)
    (hexc : venv.decodeExc fp.source_image_base64 fp.target_image_base64 = none)
    (hs : venv.imdecode fp.source_image_base64 = some src)
    (ht : venv.imdecode fp.target_image_base64 = some tgt)
    (hsrc : venv.numFaces src ≠ 0)
    (htgt : venv.numFaces tgt = 0) :
    (main.process_face_swap_and_callback venv cb url fp rid).result.status
      = "failed" ∧
    (main.process_face_swap_and_callback venv cb url fp rid).result.error
      = some "Hedef resimde yüz bulunamadı!" ∧
    strContains "Hedef resimde yüz bulunamadı!" "yüz" = true ∧
    (main.process_face_swap_and_callback venv cb url fp rid).result.request_id
      = some rid := by
  have hfs : face_swap_function venv fp.source_image_base64
      fp.target_image_base64 = .error "Hedef resimde yüz bulunamadı!" := by
    simp [face_swap_function, hexc, hs, ht, hsrc, htgt]
  refine ⟨?_, ?_, by decide, ?_⟩ <;>
    simp [main.process_face_swap_and_callback, hfs]

/-- C3 witness: the concrete faceless-target oracle satisfies the
amended statement. -/
theorem no_face_in_target_failed_callback_witness :
    (main.process_face_swap_and_callback sampleVision okCallback "u"
        sampleFaceSwapRequest "r2").result.status = "failed" ∧
    (main.process_face_swap_and_callback sampleVision okCallback "u"
        sampleFaceSwapRequest "r2").result.error =
      some "Hedef resimde yüz bulunamadı!" ∧
    strContains "Hedef resimde yüz bulunamadı!" "yüz" = true ∧
    (main.process_face_swap_and_callback sampleVision okCallback "u"
        sampleFaceSwapRequest "r2").result.request_id = some "r2" :=
  no_face_in_target_failed_callback sampleVision okCallback "u" "r2"
    sampleFaceSwapRequest "src" "tgt" rfl rfl rfl (by decide) (by decide)

/-- C4: when the vision collaborator detects zero faces in either the
source or the target image, both job kinds produce a failed result with
a non-empty error string and empty image payloads. -/
theorem zero_faces_failed_result_no_image
    (venv : VisionOracle) (gen : GenOracle) (cb : main.CallbackOracle)
    (url rid : String) (fp : main.FaceSwapRequest)
    (tp : main.TestImageRequest) (src tgt g src2 tgt2 : String)
    (hexc : venv.decodeExc fp.source_image_base64 fp.target_image_base64 = none)
    (hs : venv.imdecode fp.source_image_base64 = some src)
    (ht : venv.imdecode fp.target_image_base64 = some tgt)
    (hzero : venv.numFaces src = 0 ∨ venv.numFaces tgt = 0)
    (hg : generate_image_from_test gen tp.test_sonucu tp.test_adi
      tp.test_aciklamasi tp.gender tp.age tp.image_place tp.image_style
      = .ok g)
    (hexc2 : venv.decodeExc tp.source_face_image_base64 g = none)
    (hs2 : venv.imdecode tp.source_face_image_base64 = some src2)
    (ht2 : venv.imdecode g = some tgt2)
    (hzero2 : venv.numFaces src2 = 0 ∨ venv.numFaces tgt2 = 0) :
    ((main.process_face_swap_and_callback venv cb url fp rid).result.status
        = "failed" ∧
     (∃ e, (main.process_face_swap_and_callback venv cb url fp rid).result.error
        = some e ∧ e ≠ "") ∧
     (main.process_face_swap_and_callback venv cb url fp
        rid).result.swapped_image_base64 = "") ∧
    ((main.process_test_image_and_callback venv gen cb url tp rid).result.status
        = "failed" ∧
     (∃ e, (main.process_test_image_and_callback venv gen cb url tp
        rid).result.error = some e ∧ e ≠ "") ∧
     (main.process_test_image_and_callback venv gen cb url tp
        rid).result.generated_image_base64 = "" ∧
     (main.process_test_image_and_callback venv gen cb url tp
        rid).result.swapped_image_base64 = "") := by
  have key : ∀ a b sa tb : String, venv.decodeExc a b = none →
      venv.imdecode a = some sa → venv.imdecode b = some tb →
      venv.numFaces sa = 0 ∨ venv.numFaces tb = 0 →
      ∃ e, face_swap_function venv a b = .error e ∧ e ≠ "" := by
    intro a b sa tb h1 h2 h3 h4
    rcases h4 with h4 | h4
    · exact ⟨"Kaynak resimde yüz bulunamadı!",
        by simp [face_swap_function, h1, h2, h3, h4], by decide⟩
    · by_cases h5 : venv.numFaces sa = 0
      · exact ⟨"Kaynak resimde yüz bulunamadı!",
          by simp [face_swap_function, h1, h2, h3, h5], by decide⟩
      · exact ⟨"Hedef resimde yüz bulunamadı!",
          by simp [face_swap_function, h1, h2, h3, h4, h5], by decide⟩
  obtain ⟨e1, he1, hne1⟩ := key _ _ _ _ hexc hs ht hzero
  obtain ⟨e2, he2, hne2⟩ := key _ _ _ _ hexc2 hs2 ht2 hzero2
  constructor
  · refine ⟨?_, ⟨e1, ?_, hne1⟩, ?_⟩ <;>
      simp [main.process_face_swap_and_callback, he1]
  · refine ⟨?_, ⟨e2, ?_, hne2⟩, ?_, ?_⟩ <;>
      simp [main.process_test_image_and_callback, hg, he2]

/-- C4 witness: a target image and a generated image with zero faces
drive both job kinds to the failed shape. -/
theorem zero_faces_failed_result_no_image_witness :
    ((main.process_face_swap_and_callback sampleVision okCallback "u"
        sampleFaceSwapRequest "r3").result.status = "failed" ∧
     (∃ e, (main.process_face_swap_and_callback sampleVision okCallback "u"
        sampleFaceSwapRequest "r3").result.error = some e ∧ e ≠ "") ∧
     (main.process_face_swap_and_callback sampleVision okCallback "u"
        sampleFaceSwapRequest "r3").result.swapped_image_base64 = "") ∧
    ((main.process_test_image_and_callback sampleVision sampleGen okCallback
        "u" sampleTestImageRequest "r3").result.status = "failed" ∧
     (∃ e, (main.process_test_image_and_callback sampleVision sampleGen
        okCallback "u" sampleTestImageRequest "r3").result.error = some e ∧
        e ≠ "") ∧
     (main.process_test_image_and_callback sampleVision sampleGen okCallback
        "u" sampleTestImageRequest "r3").result.generated_image_base64 = "" ∧
     (main.process_test_image_and_callback sampleVision sampleGen okCallback
        "u" sampleTestImageRequest "r3").result.swapped_image_base64 = "") :=
  zero_faces_failed_result_no_image sampleVision sampleGen okCallback "u" "r3"
    sampleFaceSwapRequest sampleTestImageRequest "src" "tgt" "genimg" "src"
    "genimg" rfl rfl rfl (Or.inr (by decide)) rfl rfl rfl rfl
    (Or.inr (by decide))

/-- C5: when the callback POST raises, the exception is caught inside
the background task: the run differs from a run with a succeeding
callback only in the logged caught error, the delivery was still
attempted exactly once, and the submitter already got the
acknowledgement carrying the request_id. -/
theorem callback_failure_swallowed
    (venv : VisionOracle) (gen : GenOracle) (cb : main.CallbackOracle)
    (url rid err : String) (fp : main.FaceSwapRequest)
    (tp : main.TestImageRequest)
    (hf : cb.postExc (pyStrOr fp.callback_url url) = some err)
    (hti : cb.postExc (pyStrOr tp.callback_url url) = some err) :
    main.process_face_swap_and_callback venv cb url fp rid =
      { main.process_face_swap_and_callback venv { postExc := fun _ => none }
          url fp rid with caughtCallbackError := some err } ∧
    (main.process_face_swap_endpoint fp rid).1.request_id = rid ∧
    main.process_test_image_and_callback venv gen cb url tp rid =
      { main.process_test_image_and_callback venv gen
          { postExc := fun _ => none } url tp rid with
        caughtCallbackError := some err } ∧
    (main.process_test_image tp rid).1.request_id = rid := by
  refine ⟨?_, rfl, ?_, rfl⟩ <;>
    simp only [main.process_face_swap_and_callback,
      main.process_test_image_and_callback] <;>
    (repeat' split) <;> simp_all

/-- C5 witness: a concrete always-raising callback oracle is caught and
recorded while the rest of the run is unchanged. -/
theorem callback_failure_swallowed_witness :
    main.process_face_swap_and_callback happyVision failingCallback "u"
        sampleFaceSwapRequest "r4" =
      { main.process_face_swap_and_callback happyVision
          { postExc := fun _ => none } "u" sampleFaceSwapRequest "r4" with
        caughtCallbackError := some "connection refused" } ∧
    (main.process_face_swap_endpoint sampleFaceSwapRequest "r4").1.request_id
      = "r4" ∧
    main.process_test_image_and_callback happyVision sampleGen failingCallback
        "u" sampleTestImageRequest "r4" =
      { main.process_test_image_and_callback happyVision sampleGen
          { postExc := fun _ => none } "u" sampleTestImageRequest "r4" with
        caughtCallbackError := some "connection refused" } ∧
    (main.process_test_image sampleTestImageRequest "r4").1.request_id
      = "r4" :=
  callback_failure_swallowed happyVision sampleGen failingCallback "u" "r4"
    "connection refused" sampleFaceSwapRequest sampleTestImageRequest rfl rfl

/-- C7 counterexample: the legacy endpoints /direct and /face-swap do
not answer in the claimed Result-acknowledgement shape: their responses
carry no request_id key at all (and their request body is a face-swap
request, not a Result). -/
theorem direct_endpoint_response_lacks_request_id_cx :
    (callback_api.direct_face_swap happyVision
        sampleCallbackRequest).request_id = none ∧
    (callback_api.face_swap_compat happyVision
        sampleCallbackRequest).request_id = none ∧
    (callback_api.direct_face_swap happyVision sampleCallbackRequest).message
      = some "Face swap completed successfully" := by
  refine ⟨?_, ?_, ?_⟩ <;>
    simp [callback_api.direct_face_swap, callback_api.face_swap_compat,
      face_swap_function, happyVision, sampleCallbackRequest]

/-- C7 amended: the four Result-accepting receiver endpoints /callback,
/callback/face-swap, /callback/test-image and /test answer with
message, status and request_id keys (plus error or image keys by
branch), while the legacy /direct and /face-swap endpoints accept a
face-swap request body and answer with message and status but no
request_id key. -/
theorem callback_receiver_response_shapes
    (r : callback_api.FaceSwapResult) (t : callback_api.TestImageResult)
    (venv : VisionOracle) (q : callback_api.FaceSwapRequest) :
    ((callback_api.receive_face_swap_callback r).message
        = some "Face swap callback received" ∧
     (callback_api.receive_face_swap_callback r).status = some r.status ∧
     (callback_api.receive_face_swap_callback r).request_id
        = some r.request_id) ∧
    ((callback_api.receive_test_image_callback t).message
        = some "Test image callback received" ∧
     (callback_api.receive_test_image_callback t).status = some t.status ∧
     (callback_api.receive_test_image_callback t).request_id
        = some t.request_id) ∧
    callback_api.callback_compat r = callback_api.receive_face_swap_callback r ∧
    callback_api.test_compat r = callback_api.receive_face_swap_callback r ∧
    ((callback_api.direct_face_swap venv q).message.isSome = true ∧
     (callback_api.direct_face_swap venv q).status.isSome = true ∧
     (callback_api.direct_face_swap venv q).request_id = none) ∧
    callback_api.face_swap_compat venv q
      = callback_api.direct_face_swap venv q := by
  refine ⟨⟨?_, ?_, ?_⟩, ⟨?_, ?_, ?_⟩, rfl, rfl, ⟨?_, ?_, ?_⟩, rfl⟩ <;>
    simp only [callback_api.receive_face_swap_callback,
      callback_api.receive_test_image_callback,
      callback_api.direct_face_swap] <;>
    (repeat' split) <;> simp
